import Mathlib

/-!
Verification of the LoyaltyBlocks phone-validation / registration / RBAC
pipeline.  Each definition is a shallow embedding of the corresponding
TypeScript function; persistence is modelled by explicit list-valued state
and `Except`-valued lookups (a `.error` lookup models the database client
throwing).  The external `libphonenumber-js` numbering-plan backend is
modelled as an explicit record of functions (`PhoneLib`) because it is a
third-party dependency, not repository code.
-/

/-! ## JavaScript string helpers -/

/-- The whitespace class matched by the JS regex escape for whitespace and
removed by `String.prototype.trim` (ASCII part). -/
def jsWhitespace (c : Char) : Bool :=
  c = ' ' || c = '\t' || c = '\n' || c = '\r' || c = '\x0b' || c = '\x0c'

/-- JS `s.trim()`: drop leading and trailing whitespace. -/
def trimJs (s : String) : String :=
  ⟨((s.data.dropWhile jsWhitespace).reverse.dropWhile jsWhitespace).reverse⟩

/-- JS `a || b` on strings: the empty string is falsy. -/
def jsOrS (a b : String) : String :=
  if a = "" then b else a

/-- `needle` matches the leading characters of `hay`. -/
def leadMatch : List Char → List Char → Bool
  | [], _ => true
  | _ :: _, [] => false
  | a :: as, b :: bs => a == b && leadMatch as bs

/-- `needle` occurs somewhere inside `hay`. -/
def occursIn (needle hay : List Char) : Bool :=
  leadMatch needle hay ||
    (match hay with
     | [] => false
     | _ :: t => occursIn needle t)

/-- `true` iff `needle` occurs as a substring of `hay`. -/
def containsSub (hay needle : String) : Bool :=
  occursIn needle.data hay.data

/-! ## Phone formatter (`src/lib/phone-formatter.ts`) -/

/-- The separator class stripped by `validateAndFormatPhone`
(the JS regex removing whitespace, dashes, parentheses and dots). -/
def isStripChar (c : Char) : Bool :=
  jsWhitespace c || c = '-' || c = '(' || c = ')' || c = '.'

/-- `phoneInput.replace(separators, "")`. -/
def cleanPhone (s : String) : String :=
  ⟨s.data.filter (fun c => !(isStripChar c))⟩

/-- `isE164Format` from `src/lib/phone-formatter.ts`: the test of the
anchored regex "plus sign, one digit 1-9, then 1 to 14 digits". -/
def isE164Format (s : String) : Bool :=
  match s.data with
  | p :: d :: rest =>
      p == '+' && ('1' ≤ d && d ≤ '9') && rest.all Char.isDigit &&
        decide (1 ≤ rest.length) && decide (rest.length ≤ 14)
  | _ => false

/-- Canonical-form rule as the spec words it: the string is a plus sign
followed by a non-zero leading digit and 1 to 14 further digits, with no
separators. -/
def specCanonicalForm (s : String) : Prop :=
  ∃ d ds, s.data = '+' :: d :: ds ∧ '1' ≤ d ∧ d ≤ '9' ∧
    (∀ c ∈ ds, c.isDigit = true) ∧ 1 ≤ ds.length ∧ ds.length ≤ 14

/-- Result record of `validateAndFormatPhone` (type `PhoneValidationResult`). -/
structure PhoneValidationResult where
  isValid : Bool
  formatted : Option String := none
  country : Option String := none
  error : Option String := none
deriving Repr, DecidableEq

/-- Interface of the external `libphonenumber-js` backend consumed by the
phone formatter: supported-country list, validity check, parse-and-format
to canonical form (`none` models a parse exception), and country
resolution. -/
structure PhoneLib where
  validCountries : List String
  isValidPhoneNumber : String → String → Bool
  parseFormatE164 : String → String → Option String
  parseCountry : String → String → Option String

/-- `validateAndFormatPhone` from `src/lib/phone-formatter.ts`, parametric
in the numbering-plan backend. -/
def validateAndFormatPhone (lib : PhoneLib) (phoneInput countryCode : String) :
    PhoneValidationResult :=
  let cleaned := cleanPhone phoneInput
  if cleaned = "" then
    { isValid := false, error := some "Phone number is required" }
  else if !(lib.validCountries.contains countryCode) then
    { isValid := false, error := some "Invalid country code" }
  else if lib.isValidPhoneNumber cleaned countryCode = false then
    { isValid := false, error := some "Invalid phone number for the selected country" }
  else
    match lib.parseFormatE164 cleaned countryCode with
    | some f =>
        { isValid := true, formatted := some f,
          country := some (jsOrS ((lib.parseCountry cleaned countryCode).getD "") countryCode) }
    | none => { isValid := false, error := some "Failed to parse phone number" }

/-! ## Customers and the persistence boundary (`src/lib/db.ts` consumers) -/

/-- A `Customer` row (the fields the verified handlers read or write). -/
structure Customer where
  id : String
  organizationId : String
  firstName : String
  lastName : String
  phone : String
  consentGiven : Bool := true
  createdBy : Option String := none
  updatedBy : Option String := none
deriving Repr, DecidableEq

/-- The `where` filter of the availability lookup: same tenant, same phone,
optionally excluding one customer id. -/
def matchesPhoneQuery (org phone : String) (excl : Option String) (c : Customer) : Bool :=
  c.organizationId == org && c.phone == phone &&
    (match excl with
     | some e => c.id != e
     | none => true)

/-- `db.customer.findFirst` for the availability query. -/
def findFirstCustomer (db : List Customer) (org phone : String) (excl : Option String) :
    Option Customer :=
  db.find? (matchesPhoneQuery org phone excl)

/-- `true` iff inserting `(org, phone)` violates the Prisma constraint
`@@unique([organizationId, phone])`. -/
def hasPhoneConflict (db : List Customer) (org phone : String) : Bool :=
  db.any (fun c => c.organizationId == org && c.phone == phone)

/-- Error object surfaced by the persistence layer; `code` is the Prisma
error code (`"P2002"` for a unique-constraint violation). -/
structure PrismaError where
  code : String
deriving Repr, DecidableEq

/-- `db.customer.create`: rejects a duplicate `(organizationId, phone)` with
error code `"P2002"`, otherwise appends the row. -/
def customerCreate (db : List Customer) (c : Customer) : Except PrismaError (List Customer) :=
  if hasPhoneConflict db c.organizationId c.phone then .error { code := "P2002" }
  else .ok (db ++ [c])

/-! ## Phone availability checker (`src/lib/validation/phone.ts`) -/

/-- Result record of `checkPhoneAvailability` (type `PhoneAvailabilityResult`). -/
structure PhoneAvailabilityResult where
  available : Bool
  message : Option String := none
deriving Repr, DecidableEq

/-- `checkPhoneAvailability`.  The database is passed as
`Except Unit (List Customer)`: `.error` models the client throwing, which
the source catches.  The second component records whether the persistence
lookup (`findFirst`) was attempted at all. -/
def checkPhoneAvailability (phone organizationId : String) (excludeCustomerId : Option String)
    (dbE : Except Unit (List Customer)) : PhoneAvailabilityResult × Bool :=
  if isE164Format phone = false then
    ({ available := false, message := some "Phone number must be in E.164 format" }, false)
  else
    match dbE with
    | .error _ =>
        ({ available := false, message := some "Error checking phone availability" }, true)
    | .ok db =>
        match findFirstCustomer db organizationId phone excludeCustomerId with
        | some c =>
            ({ available := false,
               message := some ("Phone number already registered to "
                 ++ c.firstName ++ " " ++ c.lastName) }, true)
        | none => ({ available := true, message := some "Phone number is available" }, true)

/-- Result record of `validatePhoneAndCheckAvailability`
(`PhoneValidationResult & { available?: boolean }`). -/
structure PhoneCheckResult where
  isValid : Bool
  formatted : Option String := none
  country : Option String := none
  error : Option String := none
  available : Option Bool := none
deriving Repr, DecidableEq

/-- Spreading a plain validation result into the combined record. -/
def toCheckResult (v : PhoneValidationResult) : PhoneCheckResult :=
  { isValid := v.isValid, formatted := v.formatted, country := v.country, error := v.error }

/-- `validatePhoneAndCheckAvailability`: format-validate, then check
availability; returns the validation result unchanged (storage untouched,
second component `false`) when formatting fails. -/
def validatePhoneAndCheckAvailability (lib : PhoneLib)
    (phoneInput countryCode organizationId : String) (excludeCustomerId : Option String)
    (dbE : Except Unit (List Customer)) : PhoneCheckResult × Bool :=
  let validation := validateAndFormatPhone lib phoneInput countryCode
  if validation.isValid = false ∨ validation.formatted = none then
    (toCheckResult validation, false)
  else
    let res := checkPhoneAvailability (validation.formatted.getD "") organizationId
      excludeCustomerId dbE
    ({ toCheckResult validation with
       available := some res.1.available,
       error := if res.1.available = false then res.1.message else none }, res.2)

/-! ## Civil calendar (model of the JS `Date` year arithmetic, UTC) -/

/-- Days from civil date (proleptic Gregorian), Hinnant's algorithm. -/
def daysFromCivil (y m d : Int) : Int :=
  let yadj := y - (if m ≤ 2 then 1 else 0)
  let era := Int.ediv yadj 400
  let yoe := yadj - era * 400
  let mp := Int.emod (m + 9) 12
  let doy := Int.ediv (153 * mp + 2) 5 + d - 1
  let doe := yoe * 365 + Int.ediv yoe 4 - Int.ediv yoe 100 + doy
  era * 146097 + doe - 719468

/-- Civil date from day number, Hinnant's algorithm. -/
def civilFromDays (z : Int) : Int × Int × Int :=
  let z2 := z + 719468
  let era := Int.ediv z2 146097
  let doe := z2 - era * 146097
  let yoe := Int.ediv (doe - Int.ediv doe 1460 + Int.ediv doe 36524 - Int.ediv doe 146096) 365
  let y := yoe + era * 400
  let doy := doe - (365 * yoe + Int.ediv yoe 4 - Int.ediv yoe 100)
  let mp := Int.ediv (5 * doy + 2) 153
  let d := doy - Int.ediv (153 * mp + 2) 5 + 1
  let m := mp + (if mp < 10 then 3 else -9)
  (y + (if m ≤ 2 then 1 else 0), m, d)

def msPerDay : Int := 86400000

/-- JS `dt.setFullYear(dt.getFullYear() + delta)` on a timestamp in
milliseconds: shift the calendar year, keeping month, day-of-month and
time of day (a 29 February overflowing into a non-leap year normalizes to
1 March, as in JS). -/
def setYearDelta (t delta : Int) : Int :=
  let days := Int.ediv t msPerDay
  let msod := Int.emod t msPerDay
  match civilFromDays days with
  | (y, m, d) => daysFromCivil (y + delta) m d * msPerDay + msod

/-- Milliseconds since the epoch of midnight UTC on a civil date. -/
def utcMs (y m d : Int) : Int := daysFromCivil y m d * msPerDay

/-! ## Form validators (`src/lib/validation/form.ts`) -/

/-- A field-scoped validation error descriptor. -/
structure ValidationError where
  field : String
  message : String
deriving Repr, DecidableEq

/-- `validateEmail` helper: no whitespace characters in a part. -/
def noWs (s : String) : Bool :=
  s.data.all (fun c => !(jsWhitespace c))

/-- There is a dot at some position of the list with a nonempty suffix
after it. -/
def auxDot : List Char → Bool
  | [] => false
  | c :: rest => (c == '.' && !rest.isEmpty) || auxDot rest

/-- A dot occurs strictly inside the list (neither first nor last). -/
def hasInternalDot : List Char → Bool
  | [] => false
  | _ :: t => auxDot t

/-- Test of the anchored email regex: local part, at sign, domain with an
internal dot; no whitespace or further at signs. -/
def emailMatches (email : String) : Bool :=
  match email.splitOn "@" with
  | [localPart, domain] =>
      localPart != "" && noWs localPart && noWs domain && hasInternalDot domain.data
  | _ => false

/-- `validateEmail`: optional field, format-checked when present. -/
def validateEmail (email : String) : Option ValidationError :=
  if email = "" then none
  else if emailMatches email = false then
    some ⟨"email", "Please enter a valid email address"⟩
  else none

/-- Which name field is being validated. -/
inductive NameField
  | firstName
  | lastName
deriving Repr, DecidableEq

def nameFieldKey : NameField → String
  | .firstName => "firstName"
  | .lastName => "lastName"

def nameFieldLabel : NameField → String
  | .firstName => "First"
  | .lastName => "Last"

/-- Character class of the name regex: ASCII letters, whitespace, hyphen,
apostrophe. -/
def isNameChar (c : Char) : Bool :=
  ('a' ≤ c && c ≤ 'z') || ('A' ≤ c && c ≤ 'Z') || jsWhitespace c || c = '-' || c = '\''

/-- `validateName`: required; at least 2 characters after trimming; the
untrimmed string at most 100 characters; name-regex characters only. -/
def validateName (name : String) (fieldName : NameField) : Option ValidationError :=
  if name = "" ∨ (trimJs name).length = 0 then
    some ⟨nameFieldKey fieldName, nameFieldLabel fieldName ++ " name is required"⟩
  else if (trimJs name).length < 2 then
    some ⟨nameFieldKey fieldName, nameFieldLabel fieldName ++ " name must be at least 2 characters"⟩
  else if name.length > 100 then
    some ⟨nameFieldKey fieldName, nameFieldLabel fieldName ++ " name must be less than 100 characters"⟩
  else if !(name.data.all isNameChar) then
    some ⟨nameFieldKey fieldName,
      nameFieldLabel fieldName ++ " name can only contain letters, spaces, hyphens, and apostrophes"⟩
  else none

/-- The `Date | string` input of `validateBirthDate`: a JS-falsy value
(missing or empty string), a value parsing to an invalid date (`NaN`), or
a valid date given by its millisecond timestamp. -/
inductive BirthInput
  | emptyInput
  | invalidDate
  | ts (t : Int)
deriving Repr, DecidableEq

/-- `validateBirthDate`, with `now` the current timestamp: required, must
be a real date, strictly before now, and not before now minus 150 years
(computed with `setFullYear`). -/
def validateBirthDate (now : Int) (birthDate : BirthInput) : Option ValidationError :=
  match birthDate with
  | .emptyInput => some ⟨"birthDate", "Birth date is required"⟩
  | .invalidDate => some ⟨"birthDate", "Please enter a valid date"⟩
  | .ts t =>
    if t ≥ now then some ⟨"birthDate", "Birth date must be in the past"⟩
    else if t < setYearDelta now (-150) then
      some ⟨"birthDate", "Please enter a valid birth date"⟩
    else none

def allDigits (l : List Char) : Bool := l.all Char.isDigit

def isAsciiLetter (c : Char) : Bool :=
  ('a' ≤ c && c ≤ 'z') || ('A' ≤ c && c ≤ 'Z')

/-- Test of the US ZIP regex: five digits, optionally a dash and four more. -/
def usZipMatches (s : String) : Bool :=
  let l := s.data
  (decide (l.length = 5) && allDigits l) ||
    (decide (l.length = 10) && allDigits (l.take 5) && (l.drop 5).take 1 == ['-'] &&
      allDigits (l.drop 6))

/-- Test of the Canadian postal-code regex: letter digit letter, optional
space, digit letter digit. -/
def caPostalMatches (s : String) : Bool :=
  match s.data with
  | [a, b, c, d, e, f] =>
      isAsciiLetter a && b.isDigit && isAsciiLetter c && d.isDigit && isAsciiLetter e && f.isDigit
  | [a, b, c, sp, d, e, f] =>
      isAsciiLetter a && b.isDigit && isAsciiLetter c && sp == ' ' && d.isDigit &&
        isAsciiLetter e && f.isDigit
  | _ => false

/-- Final part of the UK postcode regex: digit then two letters. -/
def gbTail (l : List Char) : Bool :=
  match l with
  | [x, y, z] => x.isDigit && isAsciiLetter y && isAsciiLetter z
  | _ => false

/-- Optional whitespace before the UK postcode tail. -/
def gbOptWs (l : List Char) : Bool :=
  gbTail l ||
    (match l with
     | c :: t => jsWhitespace c && gbTail t
     | [] => false)

/-- Optional letter before the optional whitespace. -/
def gbOptLetter (l : List Char) : Bool :=
  gbOptWs l ||
    (match l with
     | c :: t => isAsciiLetter c && gbOptWs t
     | [] => false)

/-- One or two digits, then the rest of the UK postcode. -/
def gbDigits (l : List Char) : Bool :=
  match l with
  | c :: t =>
      c.isDigit &&
        (gbOptLetter t ||
          (match t with
           | c2 :: t2 => c2.isDigit && gbOptLetter t2
           | [] => false))
  | [] => false

/-- Test of the (case-insensitive) UK postcode regex: one or two letters,
one or two digits, optional letter, optional whitespace, digit, two
letters. -/
def gbPostcodeMatches (s : String) : Bool :=
  match s.data with
  | c :: t =>
      isAsciiLetter c &&
        (gbDigits t ||
          (match t with
           | c2 :: t2 => isAsciiLetter c2 && gbDigits t2
           | [] => false))
  | [] => false

/-- `validatePostalCode`: optional; 3 to 10 characters; country-specific
pattern for US, CA and GB. -/
def validatePostalCode (postalCode countryCode : String) : Option ValidationError :=
  if postalCode = "" then none
  else if postalCode.length < 3 ∨ postalCode.length > 10 then
    some ⟨"postalCode", "Please enter a valid postal code"⟩
  else if countryCode = "US" then
    if usZipMatches postalCode = false then
      some ⟨"postalCode", "Please enter a valid US ZIP code (e.g., 12345 or 12345-6789)"⟩
    else none
  else if countryCode = "CA" then
    if caPostalMatches postalCode = false then
      some ⟨"postalCode", "Please enter a valid Canadian postal code (e.g., A1A 1A1)"⟩
    else none
  else if countryCode = "GB" then
    if gbPostcodeMatches postalCode = false then
      some ⟨"postalCode", "Please enter a valid UK postcode"⟩
    else none
  else none

/-- Which address line is being validated. -/
inductive AddressField
  | addressLine1
  | addressLine2
deriving Repr, DecidableEq

def addressFieldKey : AddressField → String
  | .addressLine1 => "addressLine1"
  | .addressLine2 => "addressLine2"

/-- `validateAddressLine`: optional; 3 to 200 characters. -/
def validateAddressLine (address : String) (fieldName : AddressField) : Option ValidationError :=
  if address = "" then none
  else if address.length < 3 then
    some ⟨addressFieldKey fieldName, "Address must be at least 3 characters"⟩
  else if address.length > 200 then
    some ⟨addressFieldKey fieldName, "Address must be less than 200 characters"⟩
  else none

/-- Character class of the city regex: letters, whitespace, hyphen,
apostrophe, period. -/
def isCityChar (c : Char) : Bool :=
  isAsciiLetter c || jsWhitespace c || c = '-' || c = '\'' || c = '.'

/-- `validateCity`: optional; 2 to 100 characters; city-regex characters. -/
def validateCity (city : String) : Option ValidationError :=
  if city = "" then none
  else if (trimJs city).length < 2 then
    some ⟨"city", "City must be at least 2 characters"⟩
  else if city.length > 100 then
    some ⟨"city", "City must be less than 100 characters"⟩
  else if !(city.data.all isCityChar) then
    some ⟨"city", "City can only contain letters, spaces, hyphens, apostrophes, and periods"⟩
  else none

/-- `validateState`: optional; 2 to 100 characters. -/
def validateState (state : String) : Option ValidationError :=
  if state = "" then none
  else if (trimJs state).length < 2 then
    some ⟨"state", "State must be at least 2 characters"⟩
  else if state.length > 100 then
    some ⟨"state", "State must be less than 100 characters"⟩
  else none

/-- `validateConsent`: the consent flag must be `true`. -/
def validateConsent (consentGiven : Bool) : Option ValidationError :=
  if consentGiven = false then
    some ⟨"consentGiven", "You must agree to the terms to continue"⟩
  else none

/-- Registration payload (`CustomerRegistrationData`); optional string
fields use the empty string for a JS-falsy (absent) value. -/
structure CustomerRegistrationData where
  firstName : String
  lastName : String
  phone : String
  birthDate : BirthInput
  email : String := ""
  addressLine1 : String := ""
  addressLine2 : String := ""
  city : String := ""
  state : String := ""
  postalCode : String := ""
  country : String := ""
  consentGiven : Bool
deriving Repr, DecidableEq

def optErr : Option ValidationError → List ValidationError
  | some e => [e]
  | none => []

/-- `validateCustomerRegistration`: required-field checks always run
(names, birth date, consent); optional-field checks run only on non-empty
values; every violation is collected in order. -/
def validateCustomerRegistration (now : Int) (data : CustomerRegistrationData) :
    List ValidationError :=
  optErr (validateName data.firstName .firstName) ++
  optErr (validateName data.lastName .lastName) ++
  optErr (validateBirthDate now data.birthDate) ++
  optErr (validateConsent data.consentGiven) ++
  (if data.email ≠ "" then optErr (validateEmail data.email) else []) ++
  (if data.addressLine1 ≠ "" then optErr (validateAddressLine data.addressLine1 .addressLine1) else []) ++
  (if data.addressLine2 ≠ "" then optErr (validateAddressLine data.addressLine2 .addressLine2) else []) ++
  (if data.city ≠ "" then optErr (validateCity data.city) else []) ++
  (if data.state ≠ "" then optErr (validateState data.state) else []) ++
  (if data.postalCode ≠ "" then optErr (validatePostalCode data.postalCode data.country) else [])

/-! ## RBAC (`src/types`, `src/lib/middleware/rbac.ts`) -/

/-- The three internal-user roles. -/
inductive Role
  | SUPER_ADMIN
  | MANAGER
  | VIEWER
deriving Repr, DecidableEq

/-- Role name as it appears in messages and stored records. -/
def roleName : Role → String
  | .SUPER_ADMIN => "SUPER_ADMIN"
  | .MANAGER => "MANAGER"
  | .VIEWER => "VIEWER"

/-- The six capabilities of `ROLE_PERMISSIONS`. -/
inductive RoleAction
  | canManageUsers
  | canManageSettings
  | canCreateCustomers
  | canEditCustomers
  | canDeleteCustomers
  | canViewCustomers
deriving Repr, DecidableEq

/-- The `ROLE_PERMISSIONS` table. -/
def roleHasPermission (role : Role) (action : RoleAction) : Bool :=
  match role, action with
  | .SUPER_ADMIN, _ => true
  | .MANAGER, .canManageUsers => false
  | .MANAGER, .canManageSettings => false
  | .MANAGER, _ => true
  | .VIEWER, .canViewCustomers => true
  | .VIEWER, _ => false

/-- The numeric role hierarchy of `roleIsAtLeast`. -/
def roleRank : Role → Nat
  | .SUPER_ADMIN => 3
  | .MANAGER => 2
  | .VIEWER => 1

/-- `roleIsAtLeast`: hierarchy comparison. -/
def roleIsAtLeast (firstRole secondRole : Role) : Bool :=
  roleRank firstRole ≥ roleRank secondRole

/-- Authenticated internal user (`AuthenticatedUser`). -/
structure AuthUser where
  id : String
  clerkUserId : String
  email : String
  firstName : String
  lastName : String
  role : Role
  organizationId : String
deriving Repr, DecidableEq

/-- Options accepted by `withRBAC`. -/
structure RBACOptions where
  minimumRole : Option Role := none
  requiredAction : Option RoleAction := none
  organizationId : Option String := none
deriving Repr, DecidableEq

/-- Outcome of `withRBAC`: either the authorized user, or the HTTP status
and error string of the denial response. -/
inductive RBACResult
  | authorized (user : AuthUser)
  | denied (status : Nat) (error : String)
deriving Repr, DecidableEq

/-- `withRBAC` from `src/lib/middleware/rbac.ts`: authentication, then
organization membership, then minimum role, then required capability. -/
def withRBAC (user : Option AuthUser) (options : RBACOptions) : RBACResult :=
  match user with
  | none => .denied 401 "Authentication required"
  | some u =>
    if (match options.organizationId with
        | some oid => u.organizationId != oid
        | none => false) then
      .denied 403 "Access denied: Invalid organization"
    else
      match options.minimumRole with
      | some mr =>
        if roleIsAtLeast u.role mr = false then
          .denied 403 ("Access denied: Minimum role " ++ roleName mr ++ " required")
        else
          match options.requiredAction with
          | some a =>
            if roleHasPermission u.role a = false then
              .denied 403 "Access denied: Insufficient permissions"
            else .authorized u
          | none => .authorized u
      | none =>
        match options.requiredAction with
        | some a =>
          if roleHasPermission u.role a = false then
            .denied 403 "Access denied: Insufficient permissions"
          else .authorized u
        | none => .authorized u

/-! ## Organizations and route handlers -/

/-- An `Organization` row with its lazily attached settings country. -/
structure Organization where
  id : String
  slug : String
  name : String
  settingsCountry : Option String := none
deriving Repr, DecidableEq

/-- Response envelope observed by the claims: HTTP status, success flag,
error string, field-scoped details. -/
structure ApiResp where
  status : Nat
  success : Bool
  error : Option String := none
  details : List ValidationError := []
deriving Repr, DecidableEq

/-- Country used by the public registration handler:
`organization.settings?.country || body.country || "United States"`. -/
def registerCountry (org : Organization) (body : CustomerRegistrationData) : String :=
  jsOrS (org.settingsCountry.getD "") (jsOrS body.country "United States")

/-- The access-control stanza of the settings handlers
(`src/app/api/[tenantId]/settings/route.ts`): `none` means the caller may
proceed, otherwise the status and error of the denial. -/
def settingsAccessCheck (clerkUserId : Option String) (organization : Option Organization)
    (internalUser : Option AuthUser) : Option (Nat × String) :=
  match clerkUserId with
  | none => some (401, "Unauthorized")
  | some _ =>
    match organization with
    | none => some (404, "Organization not found")
    | some org =>
      match internalUser with
      | none => some (403, "Forbidden")
      | some u =>
        if u.organizationId ≠ org.id then some (403, "Forbidden")
        else if u.role ≠ .SUPER_ADMIN then
          some (403, "Only super admins can access settings")
        else none

/-- `POST /api/[tenantId]/customers/register`
(`src/app/api/[tenantId]/customers/register/route.ts`), for a resolved
organization.  `readDb` is the snapshot seen by the advisory availability
check; `writeDb` is the state the insert runs against (they differ exactly
when a concurrent insert lands between the two). -/
def registerPost (lib : PhoneLib) (now : Int) (body : CustomerRegistrationData)
    (org : Organization) (readDb writeDb : List Customer) (newId : String) :
    ApiResp × List Customer :=
  let validationErrors := validateCustomerRegistration now body
  if validationErrors ≠ [] then
    ({ status := 400, success := false, error := some "Validation failed",
       details := validationErrors }, writeDb)
  else
    let pv := validatePhoneAndCheckAvailability lib body.phone (registerCountry org body)
      org.id none (.ok readDb)
    if pv.1.isValid = false ∨ pv.1.available = some false then
      ({ status := 400, success := false,
         error := some (jsOrS ((pv.1.error).getD "") "Invalid phone number") }, writeDb)
    else
      let newCustomer : Customer :=
        { id := newId, organizationId := org.id,
          firstName := trimJs body.firstName, lastName := trimJs body.lastName,
          phone := pv.1.formatted.getD "",
          consentGiven := body.consentGiven, createdBy := none, updatedBy := none }
      match customerCreate writeDb newCustomer with
      | .ok db2 => ({ status := 201, success := true }, db2)
      | .error e =>
        if e.code = "P2002" then
          ({ status := 409, success := false,
             error := some "Phone number already registered" }, writeDb)
        else
          ({ status := 500, success := false,
             error := some "Failed to create customer record" }, writeDb)

/-- Country used by the admin-create handler:
`body.country || organization.settings?.country || "United States"`. -/
def adminCreateCountry (org : Organization) (body : CustomerRegistrationData) : String :=
  jsOrS body.country (jsOrS (org.settingsCountry.getD "") "United States")

/-- `POST /api/[tenantId]/customers/create`: authenticated admin customer
creation; `VIEWER` is denied, the same aggregate validation runs, and the
created row records the internal user as creator and updater. -/
def adminCreatePost (lib : PhoneLib) (now : Int) (body : CustomerRegistrationData)
    (internalUser : AuthUser) (org : Organization) (readDb writeDb : List Customer)
    (newId : String) : ApiResp × List Customer :=
  if internalUser.organizationId ≠ org.id then
    ({ status := 403, success := false, error := some "Forbidden" }, writeDb)
  else if internalUser.role = .VIEWER then
    ({ status := 403, success := false,
       error := some "Insufficient permissions to create customers" }, writeDb)
  else
    let validationErrors := validateCustomerRegistration now body
    if validationErrors ≠ [] then
      ({ status := 400, success := false, error := some "Validation failed",
         details := validationErrors }, writeDb)
    else
      let pv := validatePhoneAndCheckAvailability lib body.phone (adminCreateCountry org body)
        org.id none (.ok readDb)
      if pv.1.isValid = false ∨ pv.1.available = some false then
        ({ status := 400, success := false,
           error := some (jsOrS ((pv.1.error).getD "") "Invalid phone number") }, writeDb)
      else
        let newCustomer : Customer :=
          { id := newId, organizationId := org.id,
            firstName := trimJs body.firstName, lastName := trimJs body.lastName,
            phone := pv.1.formatted.getD "",
            consentGiven := body.consentGiven,
            createdBy := some internalUser.id, updatedBy := some internalUser.id }
        match customerCreate writeDb newCustomer with
        | .ok db2 => ({ status := 201, success := true }, db2)
        | .error e =>
          if e.code = "P2002" then
            ({ status := 409, success := false,
               error := some "Phone number already registered" }, writeDb)
          else
            ({ status := 500, success := false,
               error := some "Failed to create customer record" }, writeDb)

/-! ## Clerk webhook user provisioning (`src/app/api/webhooks/clerk/route.ts`) -/

/-- An internal `User` row. -/
structure DbUser where
  clerkUserId : String
  email : String
  firstName : String
  lastName : String
  role : Role
  organizationId : String
deriving Repr, DecidableEq

/-- Verified payload of a Clerk webhook event (its declared shape carries
no role field; only an organization-slug hint in the public metadata). -/
structure ClerkEvent where
  type : String
  id : String
  emailAddresses : List String
  firstName : Option String := none
  lastName : Option String := none
  organizationSlug : Option String := none
deriving Repr, DecidableEq

/-- Number of internal users of an organization (`db.user.count`). -/
def countUsersInOrg (users : List DbUser) (organizationId : String) : Nat :=
  (users.filter (fun u => u.organizationId == organizationId)).length

/-- `isFirstUserInOrganization`: the tenant currently has zero internal
users. -/
def isFirstUserInOrganization (users : List DbUser) (organizationId : String) : Bool :=
  countUsersInOrg users organizationId == 0

/-- `db.user.create` under the unique constraints on `clerkUserId` and on
`(organizationId, email)`. -/
def userCreate (users : List DbUser) (u : DbUser) : Except PrismaError (List DbUser) :=
  if users.any (fun x => x.clerkUserId == u.clerkUserId) ||
      users.any (fun x => x.organizationId == u.organizationId && x.email == u.email) then
    .error { code := "P2002" }
  else .ok (users ++ [u])

/-- Outcome of the webhook handler: the user list afterwards and the
record actually created, if any (the source swallows a create failure). -/
structure WebhookOutcome where
  users : List DbUser
  created : Option DbUser
deriving Repr, DecidableEq

/-- The `user.created` branch of the Clerk webhook handler, after
signature verification: resolve the organization by the slug hint, force
`SUPER_ADMIN` for the first user of that organization, `VIEWER` otherwise,
and create the internal user record. -/
def clerkWebhookPost (evt : ClerkEvent) (orgs : List Organization) (users : List DbUser) :
    WebhookOutcome :=
  if evt.type ≠ "user.created" then { users := users, created := none }
  else
    let email := evt.emailAddresses.head?
    let firstName := jsOrS (evt.firstName.getD "")
      (jsOrS ((email.getD "").splitOn "@").headI "User")
    let lastName := (evt.lastName.getD "")
    match evt.organizationSlug, email with
    | some slg, some e =>
      if slg = "" ∨ e = "" then { users := users, created := none }
      else
        match orgs.find? (fun o => o.slug == slg) with
        | none => { users := users, created := none }
        | some org =>
          let isFirstUser := isFirstUserInOrganization users org.id
          let role := if isFirstUser then Role.SUPER_ADMIN else Role.VIEWER
          let newUser : DbUser :=
            { clerkUserId := evt.id, email := e, firstName := firstName,
              lastName := lastName, role := role, organizationId := org.id }
          match userCreate users newUser with
          | .ok users2 => { users := users2, created := some newUser }
          | .error _ => { users := users, created := none }
    | _, _ => { users := users, created := none }

/-! ## Fixtures: a concrete numbering-plan backend for witnesses -/

/-- A miniature numbering plan accepting one US number, used to witness
the parametric theorems. -/
def toyLib : PhoneLib where
  validCountries := ["US"]
  isValidPhoneNumber := fun s _ => s == "5551234567" || s == "+15551234567"
  parseFormatE164 := fun s _ =>
    if s == "5551234567" || s == "+15551234567" then some "+15551234567" else none
  parseCountry := fun _ _ => some "US"

/-! ## Theorems -/

/-- Claim C6: `isE164Format s` is true exactly when `s` is a plus sign
followed by a non-zero leading digit and 1 to 14 further digits, with no
separators. -/
theorem C6_isE164Format_iff_canonical (s : String) :
    isE164Format s = true ↔ specCanonicalForm s := by
  obtain ⟨l⟩ := s
  cases l with
  | nil => simp [isE164Format, specCanonicalForm]
  | cons p t =>
    cases t with
    | nil => simp [isE164Format, specCanonicalForm]
    | cons d rest =>
      simp only [isE164Format, specCanonicalForm, Bool.and_eq_true, beq_iff_eq,
        decide_eq_true_eq, List.all_eq_true]
      constructor
      · rintro ⟨⟨⟨⟨hp, h1, h9⟩, hd⟩, hlen1⟩, hlen2⟩
        subst hp
        exact ⟨d, rest, rfl, h1, h9, hd, hlen1, hlen2⟩
      · rintro ⟨d2, ds2, heq, h1, h9, hd, hl1, hl2⟩
        have heq2 : p :: d :: rest = '+' :: d2 :: ds2 := by
          simpa using heq
        obtain ⟨hp, hd2, hds⟩ : p = '+' ∧ d = d2 ∧ rest = ds2 := by
          simp_all
        subst hp; subst hd2; subst hds
        exact ⟨⟨⟨⟨rfl, h1, h9⟩, hd⟩, hl1⟩, hl2⟩

/-- Claim C5: on input that is not in canonical form the availability
checker answers unavailable with the format-error message and never
attempts the persistence lookup, and the combined helper short-circuits to
the format failure without touching storage when formatting fails. -/
theorem C5_no_lookup_on_noncanonical :
    (∀ phone organizationId excl dbE, isE164Format phone = false →
      checkPhoneAvailability phone organizationId excl dbE =
        ({ available := false, message := some "Phone number must be in E.164 format" }, false)) ∧
    (∀ lib phoneInput countryCode organizationId excl dbE,
      (validateAndFormatPhone lib phoneInput countryCode).isValid = false →
      validatePhoneAndCheckAvailability lib phoneInput countryCode organizationId excl dbE =
        (toCheckResult (validateAndFormatPhone lib phoneInput countryCode), false)) := by
  constructor
  · intro phone organizationId excl dbE h
    simp [checkPhoneAvailability, h]
  · intro lib phoneInput countryCode organizationId excl dbE h
    simp [validatePhoneAndCheckAvailability, h]

/-- Witness for C5: the input "123" is rejected without a lookup, and the
combined helper on an invalid raw input never touches storage. -/
theorem C5_witness :
    checkPhoneAvailability "123" "org-1" none (.ok []) =
      ({ available := false, message := some "Phone number must be in E.164 format" }, false) ∧
    validatePhoneAndCheckAvailability toyLib "abc" "US" "org-1" none (.ok []) =
      (toCheckResult (validateAndFormatPhone toyLib "abc" "US"), false) := by
  refine ⟨C5_no_lookup_on_noncanonical.1 "123" "org-1" none (.ok []) (by decide),
    C5_no_lookup_on_noncanonical.2 toyLib "abc" "US" "org-1" none (.ok []) (by decide)⟩

/-- Claim C10: the availability checker is fail-closed: a persistence
lookup that throws is caught and reported as unavailable with the generic
error message; in particular a storage outage never yields an available
answer. -/
theorem C10_checker_fail_closed (phone organizationId : String) (excl : Option String) :
    (isE164Format phone = true →
      checkPhoneAvailability phone organizationId excl (.error ()) =
        ({ available := false, message := some "Error checking phone availability" }, true)) ∧
    (checkPhoneAvailability phone organizationId excl (.error ())).1.available = false := by
  constructor
  · intro h
    simp [checkPhoneAvailability, h]
  · by_cases h : isE164Format phone = true
    · simp [checkPhoneAvailability, h]
    · simp at h
      simp [checkPhoneAvailability, h]

/-- Witness for C10: a storage outage while checking an available-looking
canonical number answers unavailable with the generic message. -/
theorem C10_witness :
    checkPhoneAvailability "+15551234567" "org-1" none (.error ()) =
      ({ available := false, message := some "Error checking phone availability" }, true) :=
  (C10_checker_fail_closed "+15551234567" "org-1" none).1 (by decide)

theorem notStrip_of_isDigit (c : Char) (h : c.isDigit = true) : isStripChar c = false := by
  by_contra hc
  rw [Bool.not_eq_false] at hc
  simp only [isStripChar, jsWhitespace, Bool.or_eq_true, decide_eq_true_eq] at hc
  casesm* _ ∨ _ <;> subst_vars <;> exact absurd h (by decide)

theorem strip_not_between (c : Char) (hc : isStripChar c = true)
    (h1 : '1' ≤ c) (h9 : c ≤ '9') : False := by
  simp only [isStripChar, jsWhitespace, Bool.or_eq_true, decide_eq_true_eq] at hc
  casesm* _ ∨ _ <;> subst_vars <;> exact absurd h1 (by decide)

theorem cleanPhone_of_e164 (s : String) (h : isE164Format s = true) : cleanPhone s = s := by
  obtain ⟨l⟩ := s
  cases l with
  | nil => simp [isE164Format] at h
  | cons p t =>
    cases t with
    | nil => simp [isE164Format] at h
    | cons d rest =>
      simp only [isE164Format, Bool.and_eq_true, beq_iff_eq, decide_eq_true_eq,
        List.all_eq_true] at h
      obtain ⟨⟨⟨⟨hp, h1, h9⟩, hd⟩, _⟩, _⟩ := h
      subst hp
      show (⟨List.filter _ ('+' :: d :: rest)⟩ : String) = ⟨'+' :: d :: rest⟩
      congr 1
      rw [List.filter_eq_self]
      intro a ha
      simp only [List.mem_cons] at ha
      rcases ha with ha | ha | ha
      · subst ha; decide
      · subst ha
        cases hsc : isStripChar a with
        | false => simp [hsc]
        | true => exact (strip_not_between a hsc h1 h9).elim
      · have := hd a ha
        simp [notStrip_of_isDigit a this]

theorem e164_ne_empty (s : String) (h : isE164Format s = true) : s ≠ "" := by
  obtain ⟨l⟩ := s
  cases l with
  | nil => simp [isE164Format] at h
  | cons p t => simp [String.ext_iff]

/-- Claim C7: the phone formatter round-trips: under the numbering-plan
backend's canonical-form contract (the formatted output is in canonical
form, is itself valid, and re-formats to itself), any accepted input's
canonical-form output, fed back with the same country code, validates and
yields the identical canonical form. -/
theorem C7_roundtrip (lib : PhoneLib)
    (hE164 : ∀ s cc f, lib.parseFormatE164 s cc = some f → isE164Format f = true)
    (hIdem : ∀ s cc f, lib.isValidPhoneNumber s cc = true →
      lib.parseFormatE164 s cc = some f →
      lib.isValidPhoneNumber f cc = true ∧ lib.parseFormatE164 f cc = some f)
    (phoneInput countryCode f : String)
    (hok : (validateAndFormatPhone lib phoneInput countryCode).isValid = true)
    (hf : (validateAndFormatPhone lib phoneInput countryCode).formatted = some f) :
    (validateAndFormatPhone lib f countryCode).isValid = true ∧
      (validateAndFormatPhone lib f countryCode).formatted = some f := by
  simp only [validateAndFormatPhone] at hok hf ⊢
  split_ifs at hok with h1 h2 h3
  rw [if_neg h1, if_neg h2, if_neg h3] at hf
  cases hp : lib.parseFormatE164 (cleanPhone phoneInput) countryCode with
  | none => rw [hp] at hf; simp at hf
  | some g =>
    rw [hp] at hf
    simp only [Option.some.injEq] at hf
    subst g
    have hv1 : lib.isValidPhoneNumber (cleanPhone phoneInput) countryCode = true := by
      cases hb : lib.isValidPhoneNumber (cleanPhone phoneInput) countryCode
      · exact absurd hb h3
      · rfl
    obtain ⟨hv2, hp2⟩ := hIdem _ _ _ hv1 hp
    have hfe : isE164Format f = true := hE164 _ _ _ hp
    have hcl : cleanPhone f = f := cleanPhone_of_e164 f hfe
    have hne : ¬(cleanPhone f = "") := by
      rw [hcl]; exact e164_ne_empty f hfe
    rw [hcl]
    have hne2 : ¬(f = "") := e164_ne_empty f hfe
    have hv2ne : ¬(lib.isValidPhoneNumber f countryCode = false) := by
      rw [hv2]; simp
    rw [if_neg hne2, if_neg h2, if_neg hv2ne, hp2]
    exact ⟨rfl, rfl⟩

theorem toyLib_formats_canonical (s cc f : String)
    (h : toyLib.parseFormatE164 s cc = some f) : isE164Format f = true := by
  by_cases hc : (s == "5551234567" || s == "+15551234567") = true
  · have hpe : toyLib.parseFormatE164 s cc = some "+15551234567" := by
      simp only [toyLib]
      rw [if_pos hc]
    rw [hpe] at h
    injection h with h3
    rw [← h3]
    decide
  · have hpe : toyLib.parseFormatE164 s cc = none := by
      simp only [toyLib]
      rw [if_neg hc]
    rw [hpe] at h
    exact absurd h (by simp)

theorem toyLib_format_idem (s cc f : String)
    (hv : toyLib.isValidPhoneNumber s cc = true)
    (h : toyLib.parseFormatE164 s cc = some f) :
    toyLib.isValidPhoneNumber f cc = true ∧ toyLib.parseFormatE164 f cc = some f := by
  have hc : (s == "5551234567" || s == "+15551234567") = true := hv
  have hpe : toyLib.parseFormatE164 s cc = some "+15551234567" := by
    simp only [toyLib]
    rw [if_pos hc]
  rw [hpe] at h
  injection h with h3
  rw [← h3]
  refine ⟨?_, ?_⟩ <;> (simp only [toyLib]; decide)

/-- Witness for C7: the toy backend satisfies the canonical-form contract,
and the accepted raw input round-trips through its canonical form. -/
theorem C7_witness :
    (validateAndFormatPhone toyLib "+15551234567" "US").isValid = true ∧
      (validateAndFormatPhone toyLib "+15551234567" "US").formatted = some "+15551234567" :=
  C7_roundtrip toyLib toyLib_formats_canonical toyLib_format_idem
    "5551234567" "US" "+15551234567" (by decide) (by decide)

/-- Claim C8: the birth-date validator rejects any timestamp not strictly
before now, rejects any timestamp earlier than now minus 150 calendar
years, and accepts timestamps strictly between those bounds (so a date 10
years ago is accepted and one 151 years ago is rejected). -/
theorem C8_birthdate_bounds :
    (∀ now t, t ≥ now →
      validateBirthDate now (.ts t) = some ⟨"birthDate", "Birth date must be in the past"⟩) ∧
    (∀ now t, t < now → t < setYearDelta now (-150) →
      validateBirthDate now (.ts t) = some ⟨"birthDate", "Please enter a valid birth date"⟩) ∧
    (∀ now t, t < now → setYearDelta now (-150) ≤ t →
      validateBirthDate now (.ts t) = none) := by
  refine ⟨?_, ?_, ?_⟩
  · intro now t h
    simp [validateBirthDate, h]
  · intro now t h1 h2
    have hn : ¬(t ≥ now) := not_le.mpr h1
    simp [validateBirthDate, hn, h2]
  · intro now t h1 h2
    have hn : ¬(t ≥ now) := not_le.mpr h1
    have hn2 : ¬(t < setYearDelta now (-150)) := not_lt.mpr h2
    simp [validateBirthDate, hn, hn2]

/-- Witness for C8: with now = 2026-10-11 UTC, the timestamp equal to now
is rejected, 1875-10-11 (151 years ago) is rejected as out of range, and
2016-10-11 (10 years ago) is accepted. -/
theorem C8_witness :
    validateBirthDate (utcMs 2026 10 11) (.ts (utcMs 2026 10 11)) =
      some ⟨"birthDate", "Birth date must be in the past"⟩ ∧
    validateBirthDate (utcMs 2026 10 11) (.ts (utcMs 1875 10 11)) =
      some ⟨"birthDate", "Please enter a valid birth date"⟩ ∧
    validateBirthDate (utcMs 2026 10 11) (.ts (utcMs 2016 10 11)) = none :=
  ⟨C8_birthdate_bounds.1 _ _ (le_refl _),
   C8_birthdate_bounds.2.1 _ _ (by decide) (by decide),
   C8_birthdate_bounds.2.2 _ _ (by decide) (by decide)⟩

/-- A 2-letter name padded with 99 trailing spaces: 101 characters raw,
2 characters after trimming. -/
def longNameInput : String := "Ab" ++ String.mk (List.replicate 99 ' ')

/-- Counterexample to claim C9: this input is 2 characters after trimming
and uses only permitted characters, so the claim says it is accepted, but
`validateName` rejects it because the 100-character upper bound is checked
on the untrimmed string (101 characters here). -/
theorem C9_counterexample :
    (2 ≤ (trimJs longNameInput).length ∧ (trimJs longNameInput).length ≤ 100 ∧
      (trimJs longNameInput).data.all isNameChar = true) ∧
    validateName longNameInput .firstName =
      some ⟨"firstName", "First name must be less than 100 characters"⟩ := by
  exact ⟨⟨by decide, by decide, by decide⟩, by decide⟩

/-- Claim C9 (amended): the name validator accepts exactly the strings
whose trimmed form has at least 2 characters, whose untrimmed form has at
most 100 characters, and whose untrimmed form consists only of letters,
whitespace, hyphens and apostrophes. -/
theorem C9_name_validator_amended (name : String) (f : NameField) :
    validateName name f = none ↔
      (2 ≤ (trimJs name).length ∧ name.length ≤ 100 ∧ name.data.all isNameChar = true) := by
  unfold validateName
  split_ifs with h1 h2 h3 h4
  · constructor
    · intro h; simp at h
    · rintro ⟨ha, hb, hc⟩
      exfalso
      rcases h1 with h1 | h1
      · rw [h1] at ha; exact absurd ha (by decide)
      · omega
  · constructor
    · intro h; simp at h
    · rintro ⟨ha, hb, hc⟩; omega
  · constructor
    · intro h; simp at h
    · rintro ⟨ha, hb, hc⟩; omega
  · constructor
    · intro h; simp at h
    · rintro ⟨ha, hb, hc⟩
      rw [hc] at h4
      simp at h4
  · constructor
    · intro _
      refine ⟨by omega, by omega, ?_⟩
      simpa using h4
    · intro _; rfl

/-- A read-only internal user of organization `org-1`. -/
def viewerUser : AuthUser :=
  { id := "u-1", clerkUserId := "ck-1", email := "viewer@example.com", firstName := "Vee",
    lastName := "Viewer", role := .VIEWER, organizationId := "org-1" }

/-- The organization the fixtures live in. -/
def acmeOrg : Organization := { id := "org-1", slug := "acme", name := "Acme" }

/-- Counterexample to claim C2: a read-only caller denied by the
minimum-role gate receives a message that contains the name of the role
that would have succeeded (and the settings handler names super admins),
so not every denial is the generic insufficient-permission message. -/
theorem C2_counterexample :
    withRBAC (some viewerUser) { minimumRole := some .SUPER_ADMIN } =
      .denied 403 "Access denied: Minimum role SUPER_ADMIN required" ∧
    containsSub "Access denied: Minimum role SUPER_ADMIN required" (roleName .SUPER_ADMIN) = true ∧
    roleIsAtLeast .SUPER_ADMIN .SUPER_ADMIN = true ∧
    roleIsAtLeast viewerUser.role .SUPER_ADMIN = false ∧
    settingsAccessCheck (some viewerUser.clerkUserId) (some acmeOrg) (some viewerUser) =
      some (403, "Only super admins can access settings") ∧
    containsSub "Only super admins can access settings" "super admin" = true := by
  exact ⟨by decide, by decide, by decide, by decide, by decide, by decide⟩

/-- Claim C2 (amended): a denial on the required-capability path is the
generic insufficient-permission message, but a denial on the minimum-role
path embeds the required role's name in the message, and the settings
handler's denial names super admins. -/
theorem C2_denials_amended :
    (∀ (u : AuthUser) (a : RoleAction), roleHasPermission u.role a = false →
      withRBAC (some u) { requiredAction := some a } =
        .denied 403 "Access denied: Insufficient permissions") ∧
    (∀ (u : AuthUser) (mr : Role), roleIsAtLeast u.role mr = false →
      withRBAC (some u) { minimumRole := some mr } =
        .denied 403 ("Access denied: Minimum role " ++ roleName mr ++ " required")) ∧
    (∀ (u : AuthUser) (org : Organization), u.organizationId = org.id →
      u.role ≠ .SUPER_ADMIN →
      settingsAccessCheck (some u.clerkUserId) (some org) (some u) =
        some (403, "Only super admins can access settings")) := by
  refine ⟨?_, ?_, ?_⟩
  · intro u a h
    simp [withRBAC, h]
  · intro u mr h
    simp [withRBAC, h]
  · intro u org h1 h2
    simp [settingsAccessCheck, h1, h2]

/-- Witness for the amended C2: the read-only user denied the
manage-settings capability gets the generic message, while the same user
denied by the minimum-role gate gets a message naming the required role. -/
theorem C2_amended_witness :
    withRBAC (some viewerUser) { requiredAction := some .canManageSettings } =
      .denied 403 "Access denied: Insufficient permissions" ∧
    withRBAC (some viewerUser) { minimumRole := some .MANAGER } =
      .denied 403 ("Access denied: Minimum role " ++ roleName .MANAGER ++ " required") ∧
    settingsAccessCheck (some viewerUser.clerkUserId) (some acmeOrg) (some viewerUser) =
      some (403, "Only super admins can access settings") :=
  ⟨C2_denials_amended.1 viewerUser .canManageSettings (by decide),
   C2_denials_amended.2.1 viewerUser .MANAGER (by decide),
   C2_denials_amended.2.2 viewerUser acmeOrg (by decide) (by decide)⟩

/-- Claim C4: in the webhook provisioning path, whenever an internal user
record is actually created, its stored role is `SUPER_ADMIN` exactly when
the tenant had zero internal users, and `VIEWER` for every subsequent
creation (the verified event payload carries no role field, so no
requested role can override this). -/
theorem C4_first_user_role (evt : ClerkEvent) (orgs : List Organization) (users : List DbUser)
    (org : Organization) (e : String) (rest : List String)
    (htype : evt.type = "user.created")
    (hemail : evt.emailAddresses = e :: rest) (hene : e ≠ "")
    (hslug : evt.organizationSlug = some org.slug) (hsne : org.slug ≠ "")
    (hfind : orgs.find? (fun o => o.slug == org.slug) = some org)
    (hck : users.any (fun x => x.clerkUserId == evt.id) = false)
    (hem : users.any (fun x => x.organizationId == org.id && x.email == e) = false) :
    ∃ u, (clerkWebhookPost evt orgs users).created = some u ∧
      u.organizationId = org.id ∧
      u.role = (if countUsersInOrg users org.id = 0 then Role.SUPER_ADMIN else Role.VIEWER) ∧
      (clerkWebhookPost evt orgs users).users = users ++ [u] := by
  simp only [clerkWebhookPost, htype, hemail, hslug, List.head?_cons, hfind,
    isFirstUserInOrganization, userCreate, hck, hem]
  simp
  have hcond : ¬(org.slug = "" ∨ e = "") := by simp [hsne, hene]
  rw [if_neg hcond]
  exact ⟨_, rfl, rfl, rfl, rfl⟩

/-- First provisioning event under the fixture organization. -/
def clerkEventAlice : ClerkEvent :=
  { type := "user.created", id := "ck-alice", emailAddresses := ["alice@acme.com"],
    firstName := some "Alice", lastName := some "A", organizationSlug := some "acme" }

/-- Second provisioning event under the fixture organization. -/
def clerkEventBob : ClerkEvent :=
  { type := "user.created", id := "ck-bob", emailAddresses := ["bob@acme.com"],
    firstName := some "Bob", lastName := some "B", organizationSlug := some "acme" }

/-- The internal user record created by the first event. -/
def aliceUser : DbUser :=
  { clerkUserId := "ck-alice", email := "alice@acme.com", firstName := "Alice",
    lastName := "A", role := .SUPER_ADMIN, organizationId := "org-1" }

/-- Witness for C4: the first provisioning under the tenant stores
`SUPER_ADMIN`; a second provisioning stores `VIEWER`. -/
theorem C4_witness :
    (∃ u, (clerkWebhookPost clerkEventAlice [acmeOrg] []).created = some u ∧
      u.role = Role.SUPER_ADMIN) ∧
    (∃ u, (clerkWebhookPost clerkEventBob [acmeOrg] [aliceUser]).created = some u ∧
      u.role = Role.VIEWER) := by
  constructor
  · obtain ⟨u, hc, _, hrole, _⟩ := C4_first_user_role clerkEventAlice [acmeOrg] [] acmeOrg
      "alice@acme.com" [] rfl rfl (by decide) rfl (by decide) (by decide) (by decide) (by decide)
    exact ⟨u, hc, by rw [hrole]; decide⟩
  · obtain ⟨u, hc, _, hrole, _⟩ := C4_first_user_role clerkEventBob [acmeOrg] [aliceUser] acmeOrg
      "bob@acme.com" [] rfl rfl (by decide) rfl (by decide) (by decide) (by decide) (by decide)
    exact ⟨u, hc, by rw [hrole]; decide⟩

/-- The row the public registration handler inserts. -/
def publicCustomer (newId : String) (org : Organization) (body : CustomerRegistrationData)
    (f : String) : Customer :=
  { id := newId, organizationId := org.id, firstName := trimJs body.firstName,
    lastName := trimJs body.lastName, phone := f, consentGiven := body.consentGiven,
    createdBy := none, updatedBy := none }

/-- Claim C1: phone uniqueness is scoped per tenant: the same canonical
phone registers successfully under two different tenants; and when the
insert hits the persistence layer's unique-constraint violation for an
already-taken tenant-phone pair, the handler reports HTTP 409 "Phone
number already registered" rather than a generic failure, even though the
advisory availability check on its read snapshot had answered available. -/
theorem C1_tenant_scoped_conflict :
    (∀ (lib : PhoneLib) (now : Int) (body : CustomerRegistrationData)
       (org1 org2 : Organization) (id1 id2 f : String),
      validateCustomerRegistration now body = [] →
      org1.id ≠ org2.id →
      (validateAndFormatPhone lib body.phone (registerCountry org1 body)).isValid = true →
      (validateAndFormatPhone lib body.phone (registerCountry org1 body)).formatted = some f →
      (validateAndFormatPhone lib body.phone (registerCountry org2 body)).isValid = true →
      (validateAndFormatPhone lib body.phone (registerCountry org2 body)).formatted = some f →
      isE164Format f = true →
      ∃ db1, registerPost lib now body org1 [] [] id1 =
          ({ status := 201, success := true }, db1) ∧
        (registerPost lib now body org2 db1 db1 id2).1.status = 201 ∧
        (registerPost lib now body org2 db1 db1 id2).1.success = true) ∧
    (∀ (lib : PhoneLib) (now : Int) (body : CustomerRegistrationData)
       (org : Organization) (readDb writeDb : List Customer) (newId f : String),
      validateCustomerRegistration now body = [] →
      (validateAndFormatPhone lib body.phone (registerCountry org body)).isValid = true →
      (validateAndFormatPhone lib body.phone (registerCountry org body)).formatted = some f →
      isE164Format f = true →
      findFirstCustomer readDb org.id f none = none →
      hasPhoneConflict writeDb org.id f = true →
      registerPost lib now body org readDb writeDb newId =
        ({ status := 409, success := false, error := some "Phone number already registered" },
          writeDb)) := by
  constructor
  · intro lib now body org1 org2 id1 id2 f hval hne hv1 hf1 hv2 hf2 hfe
    refine ⟨[publicCustomer id1 org1 body f], ?_, ?_, ?_⟩
    · simp only [registerPost, hval, validatePhoneAndCheckAvailability, hv1, hf1,
        checkPhoneAvailability, hfe, findFirstCustomer, customerCreate, hasPhoneConflict,
        publicCustomer]
      simp [toCheckResult, hv1, hf1, hfe]
    · simp only [registerPost, hval, validatePhoneAndCheckAvailability, hv2, hf2,
        checkPhoneAvailability, hfe, findFirstCustomer, customerCreate, hasPhoneConflict,
        publicCustomer]
      simp [toCheckResult, hv2, hf2, hfe, matchesPhoneQuery, hne, Ne.symm hne]
    · simp only [registerPost, hval, validatePhoneAndCheckAvailability, hv2, hf2,
        checkPhoneAvailability, hfe, findFirstCustomer, customerCreate, hasPhoneConflict,
        publicCustomer]
      simp [toCheckResult, hv2, hf2, hfe, matchesPhoneQuery, hne, Ne.symm hne]
  · intro lib now body org readDb writeDb newId f hval hv hf hfe hfind hconf
    simp only [registerPost, hval, validatePhoneAndCheckAvailability, hv, hf,
      checkPhoneAvailability, hfe, customerCreate]
    simp [toCheckResult, hv, hf, hfe, hfind, hconf]

/-- A second, distinct organization. -/
def betaOrg : Organization := { id := "org-2", slug := "beta", name := "Beta" }

/-- A valid public-registration payload. -/
def regBody : CustomerRegistrationData :=
  { firstName := "John", lastName := "Doe", phone := "5551234567",
    birthDate := .ts (utcMs 1990 1 15), country := "US", consentGiven := true }

/-- An existing customer of `org-1` already holding the canonical number. -/
def takenCustomer : Customer :=
  { id := "c-0", organizationId := "org-1", firstName := "Jane", lastName := "Smith",
    phone := "+15551234567", consentGiven := true }

/-- Witness for C1: the same number registers under both organizations,
and a write-time conflict after an available-saying advisory check yields
HTTP 409 "Phone number already registered". -/
theorem C1_witness :
    (∃ db1, registerPost toyLib (utcMs 2026 10 11) regBody acmeOrg [] [] "c-1" =
        ({ status := 201, success := true }, db1) ∧
      (registerPost toyLib (utcMs 2026 10 11) regBody betaOrg db1 db1 "c-2").1.status = 201 ∧
      (registerPost toyLib (utcMs 2026 10 11) regBody betaOrg db1 db1 "c-2").1.success = true) ∧
    registerPost toyLib (utcMs 2026 10 11) regBody acmeOrg [] [takenCustomer] "c-3" =
      ({ status := 409, success := false, error := some "Phone number already registered" },
        [takenCustomer]) :=
  ⟨C1_tenant_scoped_conflict.1 toyLib (utcMs 2026 10 11) regBody acmeOrg betaOrg "c-1" "c-2"
      "+15551234567" (by decide) (by decide) (by decide) (by decide) (by decide) (by decide)
      (by decide),
   C1_tenant_scoped_conflict.2 toyLib (utcMs 2026 10 11) regBody acmeOrg [] [takenCustomer]
      "c-3" "+15551234567" (by decide) (by decide) (by decide) (by decide) (by decide)
      (by decide)⟩

/-- A customer-manager internal user of `org-1`. -/
def managerUser : AuthUser :=
  { id := "u-2", clerkUserId := "ck-mgr", email := "mgr@acme.com", firstName := "Max",
    lastName := "Manager", role := .MANAGER, organizationId := "org-1" }

/-- An otherwise-valid creation payload with `consentGiven = false`. -/
def adminBodyNoConsent : CustomerRegistrationData :=
  { firstName := "John", lastName := "Doe", phone := "5551234567",
    birthDate := .ts (utcMs 1990 1 15), country := "US", consentGiven := false }

/-- Claim C3, evaluated on the code: public registration with
`consentGiven = false` is rejected (as the claim says), but the
admin-create handler runs the same aggregate validator including the
consent check, so an authorized manager's creation with
`consentGiven = false` is also rejected with a 400 validation error and
nothing is persisted — the admin path does not accept and store
`consentGiven = false` as the claim asserts. -/
theorem C3_admin_consent_divergence :
    validateConsent false = some ⟨"consentGiven", "You must agree to the terms to continue"⟩ ∧
    validateCustomerRegistration (utcMs 2026 10 11) adminBodyNoConsent =
      [⟨"consentGiven", "You must agree to the terms to continue"⟩] ∧
    (adminCreatePost toyLib (utcMs 2026 10 11) adminBodyNoConsent managerUser acmeOrg
        [] [] "c-9").1 =
      { status := 400, success := false, error := some "Validation failed",
        details := [⟨"consentGiven", "You must agree to the terms to continue"⟩] } ∧
    (adminCreatePost toyLib (utcMs 2026 10 11) adminBodyNoConsent managerUser acmeOrg
        [] [] "c-9").2 = [] ∧
    (registerPost toyLib (utcMs 2026 10 11) adminBodyNoConsent acmeOrg [] [] "c-9").1.status
      = 400 := by
  exact ⟨by decide, by decide, by decide, by decide, by decide⟩
